import Mathlib

/-!
Verification of the trynerapp motion-sensing pipeline.

This file gives a shallow embedding, in Lean 4, of the core components of
the repository's motion engine — the low-pass filter, the scoring engine,
the rep feature extractor, the squat repetition state machine, the batch
peak detector and the pipeline orchestrator's per-sample error handling —
and proves or refutes the behavioral claims made about them.

JavaScript numbers are modelled by the rationals; the only places where a
non-finite value can actually flow through the code are the detector's
valley-magnitude sentinel (JS `Infinity`, modelled as `Option` with `none`
standing for the sentinel) and the scoring engine's sanitizer inputs
(modelled by the dedicated type `JNum` with NaN and signed-infinity
constructors).  `Math.round` on nonnegative JS numbers is `⌊x + 1/2⌋`.
-/

namespace Tryner

/-- Rounds the way JS `Math.round` does: half-up, i.e. the floor of `q + 1/2`. -/
def jsRound (q : ℚ) : ℤ := ⌊q + 1/2⌋

/-! ## Low-pass filter (`LowPassFilter.ts`)

State: `alpha`, per-axis previous filtered values, and the `isInitialized`
cold-start flag.  The constructor and `setAlpha` throw exactly when
`alpha < 0 || alpha > 1`; throwing is modelled by `Option`. -/

/-- Mutable state of the `LowPassFilter` class. -/
structure LowPassFilter where
  alpha : ℚ
  previousX : ℚ
  previousY : ℚ
  previousZ : ℚ
  isInitialized : Bool
deriving DecidableEq

/-- Constructor of `LowPassFilter`: throws iff `alpha < 0 || alpha > 1`,
otherwise starts with zeroed previous values and `isInitialized = false`. -/
def LowPassFilter.new (alpha : ℚ) : Option LowPassFilter :=
  if alpha < 0 ∨ alpha > 1 then none
  else some { alpha := alpha, previousX := 0, previousY := 0, previousZ := 0,
              isInitialized := false }

/-- The `filter(rawX, rawY, rawZ)` method: first call passes the raw values
through and stores them; later calls apply the per-axis EMA recurrence and
store the filtered values. -/
def LowPassFilter.filter (f : LowPassFilter) (rawX rawY rawZ : ℚ) :
    (ℚ × ℚ × ℚ) × LowPassFilter :=
  if f.isInitialized = false then
    ((rawX, rawY, rawZ),
     { f with previousX := rawX, previousY := rawY, previousZ := rawZ,
              isInitialized := true })
  else
    let filteredX := f.alpha * rawX + (1 - f.alpha) * f.previousX
    let filteredY := f.alpha * rawY + (1 - f.alpha) * f.previousY
    let filteredZ := f.alpha * rawZ + (1 - f.alpha) * f.previousZ
    ((filteredX, filteredY, filteredZ),
     { f with previousX := filteredX, previousY := filteredY, previousZ := filteredZ })

/-- The `reset()` method: zero the previous values and clear the flag. -/
def LowPassFilter.reset (f : LowPassFilter) : LowPassFilter :=
  { f with previousX := 0, previousY := 0, previousZ := 0, isInitialized := false }

/-- The `setAlpha(alpha)` method: throws iff `alpha < 0 || alpha > 1`. -/
def LowPassFilter.setAlpha (f : LowPassFilter) (alpha : ℚ) : Option LowPassFilter :=
  if alpha < 0 ∨ alpha > 1 then none
  else some { f with alpha := alpha }

/-! ## Scoring engine (`ScoringEngine.ts`)

The three feature fields read by `score` may be NaN or infinite in JS, so
they are modelled by `JNum`. -/

/-- A JS number as seen by `sanitizeScore`: NaN, one of the two infinities,
or a finite value. -/
inductive JNum where
  | nan : JNum
  | posInf : JNum
  | negInf : JNum
  | fin : ℚ → JNum
deriving DecidableEq

/-- The fields of `RepFeatures` that `ScoringEngine.score` reads. -/
structure ScoringFeatures where
  depthScore : JNum
  stabilityScore : JNum
  rangeScore : JNum
deriving DecidableEq

/-- The weight vector of the scoring engine. -/
structure ScoringWeights where
  depth : ℚ
  stability : ℚ
  consistency : ℚ
deriving DecidableEq

/-- Default weights `{0.5, 0.3, 0.2}` of `ScoringEngine`. -/
def DEFAULT_WEIGHTS : ScoringWeights :=
  { depth := 0.5, stability := 0.3, consistency := 0.2 }

/-- Technique labels of `RepScore`. -/
inductive Technique where
  | excellent | optimal | good | acceptable | poor
deriving DecidableEq

/-- The `getScoreTechnique` function over the fixed `SCORE_THRESHOLDS`. -/
def getScoreTechnique (score : ℚ) : Technique :=
  if score ≥ 85 then .excellent
  else if score ≥ 70 then .optimal
  else if score ≥ 50 then .good
  else if score ≥ 0 then .acceptable
  else .poor

/-- A `RepScore` as returned by the scoring engine; the four numeric fields
are the results of JS `Math.round`, hence integers. -/
structure RepScore where
  overall : ℤ
  depth : ℤ
  stability : ℤ
  consistency : ℤ
  technique : Technique
deriving DecidableEq

/-- The private `sanitizeScore`: NaN and infinities (the non-`number` case
cannot arise in a typed model) become `0`; finite values are clamped to
`[0, 100]`. -/
def sanitizeScore : JNum → ℚ
  | .nan => 0
  | .posInf => 0
  | .negInf => 0
  | .fin q => max 0 (min 100 q)

/-- The private `calculateWeightedScore`. -/
def calculateWeightedScore (w : ScoringWeights) (depth stability consistency : ℚ) : ℚ :=
  depth * w.depth + stability * w.stability + consistency * w.consistency

/-- `validateWeights` succeeds iff the weights sum to 1 within `0.001`. -/
def validateWeights (w : ScoringWeights) : Bool :=
  ¬ (|w.depth + w.stability + w.consistency - 1| > 0.001)

/-- `ScoringEngine.score`: sanitize the three inputs, take the weighted
average (the unrounded value also picks the technique label), and round
the four returned numbers. -/
def ScoringEngine.score (w : ScoringWeights) (features : ScoringFeatures) : RepScore :=
  let depth := sanitizeScore features.depthScore
  let stability := sanitizeScore features.stabilityScore
  let consistency := sanitizeScore features.rangeScore
  let overall := calculateWeightedScore w depth stability consistency
  { overall := jsRound overall
    depth := jsRound depth
    stability := jsRound stability
    consistency := jsRound consistency
    technique := getScoreTechnique overall }

/-! ## Rep feature extractor (`RepFeatureExtractor.ts`) -/

/-- Input of `RepFeatureExtractor.extract`. -/
structure RepDataForExtraction where
  descendStartTime : ℚ
  bottomTime : ℚ
  ascendStartTime : ℚ
  completionTime : ℚ
  peakMagnitude : ℚ
  valleyMagnitude : ℚ
  peakZValue : ℚ
  valleyZValue : ℚ
deriving DecidableEq, Inhabited

/-- The features computed at candidate-rep completion. -/
structure RepFeatures where
  descendDuration : ℚ
  ascendDuration : ℚ
  totalDuration : ℚ
  depthScore : ℚ
  stabilityScore : ℚ
  rangeScore : ℚ
  peakMagnitude : ℚ
  valleyMagnitude : ℚ
  magnitudeChange : ℚ
  zAxisChange : ℚ
deriving DecidableEq, Inhabited

/-- The private `calculateDepthScore`: a piecewise scale of the
peak-to-valley magnitude change. -/
def calculateDepthScore (magnitudeChange : ℚ) : ℚ :=
  if magnitudeChange ≥ 1.2 then 100
  else if magnitudeChange ≥ 1.0 then 90
  else if magnitudeChange ≥ 0.8 then 70
  else if magnitudeChange ≥ 0.6 then 50
  else max 0 (magnitudeChange / 0.6 * 50)

/-- The private `calculateStabilityScore`: the scaled descend/ascend
balance, with an explicit division-by-zero guard. -/
def calculateStabilityScore (descendDuration ascendDuration : ℚ) : ℚ :=
  if ascendDuration = 0 ∨ descendDuration = 0 then 0
  else
    let bal := min descendDuration ascendDuration / max descendDuration ascendDuration
    if bal ≥ 0.9 then 100
    else if bal ≥ 0.7 then 85
    else if bal ≥ 0.5 then 65
    else if bal ≥ 0.3 then 40
    else max 0 (bal * 100)

/-- The private `calculateRangeScore`: in the MVP this mirrors the depth
score scale. -/
def calculateRangeScore (magnitudeChange : ℚ) : ℚ :=
  if magnitudeChange ≥ 1.2 then 100
  else if magnitudeChange ≥ 1.0 then 90
  else if magnitudeChange ≥ 0.8 then 70
  else if magnitudeChange ≥ 0.6 then 50
  else max 0 (magnitudeChange / 0.6 * 50)

/-- `RepFeatureExtractor.extract`. -/
def extract (data : RepDataForExtraction) : RepFeatures :=
  let descendDuration := data.bottomTime - data.descendStartTime
  let ascendDuration := data.completionTime - data.ascendStartTime
  let totalDuration := data.completionTime - data.descendStartTime
  let magnitudeChange := data.peakMagnitude - data.valleyMagnitude
  let zAxisChange := data.valleyZValue - data.peakZValue
  { descendDuration := descendDuration
    ascendDuration := ascendDuration
    totalDuration := totalDuration
    depthScore := calculateDepthScore magnitudeChange
    stabilityScore := calculateStabilityScore descendDuration ascendDuration
    rangeScore := calculateRangeScore magnitudeChange
    peakMagnitude := data.peakMagnitude
    valleyMagnitude := data.valleyMagnitude
    magnitudeChange := magnitudeChange
    zAxisChange := zAxisChange }

/-! ## Squat detector (`RepDetector.ts` base class and `SquatDetector`)

The mutable fields of the detector instance form `DetectorState`.  The
`valleyMagnitude` field starts at JS `Infinity`; it is modelled as
`Option ℚ`, with `none` for the sentinel.  All thresholds the comparison
operators meet are finite, so a comparison against the sentinel value is
simply false, which the embedding makes explicit at each use site. -/

/-- The phases of the rep state machine. -/
inductive RepPhase where
  | idle | descending | bottom | ascending | completed
deriving DecidableEq

/-- The fields of `ProcessedSensorData` read by the detector and the peak
detector. -/
structure ProcessedSensorData where
  z : ℚ
  timestamp : ℚ
  magnitude : ℚ
  filteredZ : ℚ
  filteredMagnitude : ℚ
deriving DecidableEq, Inhabited

/-- A detected repetition as built by `createDetectedRep`. -/
structure DetectedRep where
  repNumber : ℕ
  timestamp : ℚ
  duration : ℚ
  depth : ℚ
  isValid : Bool
  features : RepFeatures
deriving DecidableEq

/-- The `SquatDetectionConfig` thresholds read by the squat detector. -/
structure SquatDetectionConfig where
  minDepthThreshold : ℚ
  minZAxisChange : ℚ
  minRepDuration : ℚ
  maxRepDuration : ℚ
  minStabilityScore : ℚ
  minDepthScore : ℚ
deriving DecidableEq

/-- The default squat detection thresholds from `constants.ts`. -/
def DEFAULT_SQUAT_CONFIG : SquatDetectionConfig :=
  { minDepthThreshold := 0.08
    minZAxisChange := -0.1
    minRepDuration := 100
    maxRepDuration := 60000
    minStabilityScore := 0
    minDepthScore := 0 }

/-- The class constant `MAGNITUDE_DROP_THRESHOLD` (G drop that enters the
descending phase). -/
def MAGNITUDE_DROP_THRESHOLD : ℚ := 0.30

/-- The class constant `MAGNITUDE_RISE_THRESHOLD` (G rise that enters the
bottom phase). -/
def MAGNITUDE_RISE_THRESHOLD : ℚ := 0.15

/-- The mutable state of a `SquatDetector` instance. -/
structure DetectorState where
  currentPhase : RepPhase
  repCount : ℕ
  repStartTime : ℚ
  descendStartTime : ℚ
  bottomTime : ℚ
  ascendStartTime : ℚ
  peakMagnitude : ℚ
  valleyMagnitude : Option ℚ
  peakZValue : ℚ
  valleyZValue : ℚ
deriving DecidableEq

/-- The base-class `resetRepState`: clears the in-progress rep tracking
fields (phase and counter are untouched). -/
def resetRepState (s : DetectorState) : DetectorState :=
  { s with repStartTime := 0, descendStartTime := 0, bottomTime := 0,
           ascendStartTime := 0, peakMagnitude := 0, valleyMagnitude := none,
           peakZValue := 0, valleyZValue := 0 }

/-- The base-class `reset()`: back to idle, counter zeroed, rep state
cleared.  Its result does not depend on the previous state. -/
def DetectorState.reset (s : DetectorState) : DetectorState :=
  resetRepState { s with currentPhase := .idle, repCount := 0 }

/-- A fresh detector, as the field initializers of `RepDetector` build it. -/
def initialDetectorState : DetectorState :=
  { currentPhase := .idle, repCount := 0, repStartTime := 0,
    descendStartTime := 0, bottomTime := 0, ascendStartTime := 0,
    peakMagnitude := 0, valleyMagnitude := none, peakZValue := 0,
    valleyZValue := 0 }

/-- `updatePeakMagnitude`: running max. -/
def updatePeakMagnitude (magnitude : ℚ) (s : DetectorState) : DetectorState :=
  { s with peakMagnitude :=
      if magnitude > s.peakMagnitude then magnitude else s.peakMagnitude }

/-- `updateValleyMagnitude`: running min, with any finite sample replacing
the `Infinity` sentinel. -/
def updateValleyMagnitude (magnitude : ℚ) (s : DetectorState) : DetectorState :=
  { s with valleyMagnitude :=
      match s.valleyMagnitude with
      | none => some magnitude
      | some v => some (if magnitude < v then magnitude else v) }

/-- `updateZAxisTracking`: running max/min of the vertical axis. -/
def updateZAxisTracking (z : ℚ) (s : DetectorState) : DetectorState :=
  { s with peakZValue := if z > s.peakZValue then z else s.peakZValue,
           valleyZValue := if z < s.valleyZValue then z else s.valleyZValue }

/-- The tracking updates `detect` performs before entering the state
machine: peak always; valley and vertical axis while descending or at the
bottom; vertical axis while idle. -/
def trackUpdates (s : DetectorState) (d : ProcessedSensorData) : DetectorState :=
  let s0 := updatePeakMagnitude d.filteredMagnitude s
  let s1 :=
    if s0.currentPhase = .descending ∨ s0.currentPhase = .bottom then
      updateZAxisTracking d.filteredZ (updateValleyMagnitude d.filteredMagnitude s0)
    else s0
  if s1.currentPhase = .idle then updateZAxisTracking d.filteredZ s1 else s1

/-- `isValidDuration` from the base class. -/
def isValidDuration (startTime endTime minDuration maxDuration : ℚ) : Prop :=
  endTime - startTime ≥ minDuration ∧ endTime - startTime ≤ maxDuration

instance (a b c d : ℚ) : Decidable (isValidDuration a b c d) := by
  unfold isValidDuration; infer_instance

/-- `createDetectedRep`, called only where the valley sentinel has been
replaced; the call site passes the finite valley value `v`, so the
`calculateMagnitudeChange` finiteness guard resolves to `peak - v`. -/
def createDetectedRep (s : DetectorState) (v : ℚ) (timestamp : ℚ) : DetectedRep :=
  { repNumber := s.repCount + 1
    timestamp := timestamp
    duration := timestamp - s.repStartTime
    depth := s.peakMagnitude - v
    isValid := false
    features := extract
      { descendStartTime := s.descendStartTime
        bottomTime := s.bottomTime
        ascendStartTime := s.ascendStartTime
        completionTime := timestamp
        peakMagnitude := s.peakMagnitude
        valleyMagnitude := v
        peakZValue := s.peakZValue
        valleyZValue := s.valleyZValue } }

/-- `SquatDetector.validateRep`: the five quality checks, in source order. -/
def validateRep (cfg : SquatDetectionConfig) (s : DetectorState) (rep : DetectedRep) : Bool :=
  if rep.depth < cfg.minDepthThreshold then false
  else if |rep.features.zAxisChange| < |cfg.minZAxisChange| then false
  else if ¬ isValidDuration s.repStartTime rep.timestamp
            cfg.minRepDuration cfg.maxRepDuration then false
  else if rep.features.stabilityScore < cfg.minStabilityScore then false
  else if rep.features.depthScore < cfg.minDepthScore then false
  else true

/-- `handleIdlePhase`: a drop of the filtered magnitude below the running
peak by more than the drop threshold starts a descent. -/
def handleIdlePhase (s : DetectorState) (d : ProcessedSensorData) :
    Option DetectedRep × DetectorState :=
  if s.peakMagnitude - d.filteredMagnitude > MAGNITUDE_DROP_THRESHOLD then
    let s1 := resetRepState s
    let s2 := { s1 with repStartTime := d.timestamp, descendStartTime := d.timestamp }
    let s3 := updatePeakMagnitude d.filteredMagnitude s2
    (none, { s3 with currentPhase := .descending })
  else (none, s)

/-- `handleDescendingPhase`: timeout after 5 s, otherwise a rise above the
valley by more than the rise threshold reaches the bottom.  A sentinel
valley compares as `-Infinity < threshold`, i.e. no transition. -/
def handleDescendingPhase (s : DetectorState) (d : ProcessedSensorData) :
    Option DetectedRep × DetectorState :=
  if d.timestamp - s.descendStartTime > 5000 then
    (none, resetRepState { s with currentPhase := .idle })
  else
    match s.valleyMagnitude with
    | none => (none, s)
    | some v =>
      if d.filteredMagnitude - v > MAGNITUDE_RISE_THRESHOLD then
        (none, { s with bottomTime := d.timestamp, currentPhase := .bottom })
      else (none, s)

/-- `handleBottomPhase`: one transient sample, immediately ascending. -/
def handleBottomPhase (s : DetectorState) (d : ProcessedSensorData) :
    Option DetectedRep × DetectorState :=
  (none, { s with ascendStartTime := d.timestamp, currentPhase := .ascending })

/-- `handleAscendingPhase`: timeout after 5 s; otherwise, a recovery
(current minus valley) reaching the configured minimum depth completes the
candidate rep, which is counted iff `validateRep` accepts it.  A sentinel
valley gives recovery `-Infinity`, i.e. no completion. -/
def handleAscendingPhase (cfg : SquatDetectionConfig) (s : DetectorState)
    (d : ProcessedSensorData) : Option DetectedRep × DetectorState :=
  if d.timestamp - s.ascendStartTime > 5000 then
    (none, resetRepState { s with currentPhase := .idle })
  else
    match s.valleyMagnitude with
    | none => (none, s)
    | some v =>
      if d.filteredMagnitude - v ≥ cfg.minDepthThreshold then
        let rep := createDetectedRep s v d.timestamp
        if validateRep cfg s rep then
          (some { rep with isValid := true },
           resetRepState { s with repCount := s.repCount + 1, currentPhase := .idle })
        else
          (none, resetRepState { s with currentPhase := .idle })
      else (none, s)

/-- `SquatDetector.detect`: the tracking updates followed by the state
machine dispatch on the current phase. -/
def detect (cfg : SquatDetectionConfig) (s : DetectorState) (d : ProcessedSensorData) :
    Option DetectedRep × DetectorState :=
  let s2 := trackUpdates s d
  match s2.currentPhase with
  | .idle => handleIdlePhase s2 d
  | .descending => handleDescendingPhase s2 d
  | .bottom => handleBottomPhase s2 d
  | .ascending => handleAscendingPhase cfg s2 d
  | .completed => (none, { s2 with currentPhase := .idle })

/-- Feeds a list of samples through `detect`, collecting the emitted reps
in order of emission. -/
def runDetector (cfg : SquatDetectionConfig) (s : DetectorState) :
    List ProcessedSensorData → DetectorState × List DetectedRep
  | [] => (s, [])
  | d :: rest =>
    let step := detect cfg s d
    let tail := runDetector cfg step.2 rest
    (tail.1, step.1.toList ++ tail.2)

/-! ## Batch peak detector (`PeakDetector.ts`) -/

/-- A detected peak or valley. -/
structure Peak where
  value : ℚ
  index : ℕ
  timestamp : ℚ
  prominence : ℚ
deriving DecidableEq, Inhabited

/-- The peak-detector configuration. -/
structure PeakDetectionConfig where
  prominence : ℚ
  minDistance : ℚ
deriving DecidableEq

/-- JS `Math.min(...xs)` over a possibly empty spread, with the fallback
the source supplies for an empty window. -/
def minOf (l : List ℚ) (dflt : ℚ) : ℚ :=
  match l with
  | [] => dflt
  | x :: xs => xs.foldl min x

/-- JS `Math.max(...xs)` over a possibly empty spread, with the fallback
the source supplies for an empty window. -/
def maxOf (l : List ℚ) (dflt : ℚ) : ℚ :=
  match l with
  | [] => dflt
  | x :: xs => xs.foldl max x

/-- The private `calculateProminence`: the extremum value against the
average of the surrounding windows `slice(max(0, i - 10), i)` on the left
and `slice(i + 1, min(length, i + 10))` on the right, the extremum's own
value standing in for an empty window. -/
def calculateProminence (signal : List ℚ) (index : ℕ) (isValley : Bool) : ℚ :=
  let peakValue := signal.getD index 0
  let leftStart := index - 10
  let rightEnd := min signal.length (index + 10)
  let leftWindow := (signal.take index).drop leftStart
  let rightWindow := (signal.take rightEnd).drop (index + 1)
  if isValley then
    let leftMax := maxOf leftWindow peakValue
    let rightMax := maxOf rightWindow peakValue
    (leftMax + rightMax) / 2 - peakValue
  else
    let leftMin := minOf leftWindow peakValue
    let rightMin := minOf rightWindow peakValue
    peakValue - (leftMin + rightMin) / 2

/-- The fold step of the private `filterByDistance`: the accumulator is
the kept list together with `lastIndex` (`none` for the initial
`-Infinity`, under which any finite distance check passes). -/
def filterByDistanceStep (cfg : PeakDetectionConfig)
    (st : List Peak × Option ℕ) (p : Peak) : List Peak × Option ℕ :=
  let keep : Bool :=
    match st.2 with
    | none => true
    | some li => decide ((p.index : ℚ) - (li : ℚ) ≥ cfg.minDistance)
  if keep then (st.1 ++ [p], some p.index)
  else
    match st.1.getLast? with
    | none => st
    | some lastPeak =>
      if lastPeak.prominence < p.prominence then (st.1.dropLast ++ [p], some p.index)
      else st

/-- The private `filterByDistance`: collapse extrema closer than
`minDistance`, keeping the more prominent of a colliding pair. -/
def filterByDistance (cfg : PeakDetectionConfig) (peaks : List Peak) : List Peak :=
  if peaks.length ≤ 1 then peaks
  else (peaks.foldl (filterByDistanceStep cfg) ([], none)).1

/-- `PeakDetector.findPeaks`: fewer than 3 samples gives an empty result;
otherwise scan indices `1 .. length - 2` for strict local maxima, annotate
each with its prominence, keep those meeting the prominence threshold, and
run the distance filter. -/
def findPeaks (cfg : PeakDetectionConfig) (data : List ProcessedSensorData)
    (useFiltered : Bool) : List Peak :=
  if data.length < 3 then []
  else
    let signal := data.map fun d => if useFiltered then d.filteredMagnitude else d.magnitude
    let peaks := (List.range signal.length).filterMap fun i =>
      if 1 ≤ i ∧ i + 1 < signal.length then
        let current := signal.getD i 0
        let previous := signal.getD (i - 1) 0
        let next := signal.getD (i + 1) 0
        if current > previous ∧ current > next then
          let prom := calculateProminence signal i false
          if prom ≥ cfg.prominence then
            some { value := current, index := i,
                   timestamp := (data.getD i default).timestamp, prominence := prom }
          else none
        else none
      else none
    filterByDistance cfg peaks

/-- Modelled from the spec: the prominence formula the specification
states, with a look-around window of 10 samples on each side of the peak
(indices `i - 10 .. i - 1` and `i + 1 .. i + 10`, clipped at the window
boundaries, the peak's own value standing in for an empty side). -/
def claimedProminence (signal : List ℚ) (index : ℕ) : ℚ :=
  let peakValue := signal.getD index 0
  let leftWindow := (signal.take index).drop (index - 10)
  let rightWindow := (signal.take (min signal.length (index + 11))).drop (index + 1)
  peakValue - (minOf leftWindow peakValue + minOf rightWindow peakValue) / 2

/-- A 12-sample window exercising the right-hand look-around boundary: a
single strict local maximum at index 1, constant plateau after it, and a
deep minimum at index 11, which is 10 samples to the right of the peak. -/
def peakWindowSamples : List ProcessedSensorData :=
  [⟨0, 0, 0, 0, 0⟩, ⟨0, 1, 0, 0, 1⟩, ⟨0, 2, 0, 0, 0.5⟩, ⟨0, 3, 0, 0, 0.5⟩,
   ⟨0, 4, 0, 0, 0.5⟩, ⟨0, 5, 0, 0, 0.5⟩, ⟨0, 6, 0, 0, 0.5⟩, ⟨0, 7, 0, 0, 0.5⟩,
   ⟨0, 8, 0, 0, 0.5⟩, ⟨0, 9, 0, 0, 0.5⟩, ⟨0, 10, 0, 0, 0.5⟩, ⟨0, 11, 0, 0, -5⟩]

/-- A permissive configuration under which the peak above is reported. -/
def peakWindowConfig : PeakDetectionConfig :=
  { prominence := 0, minDistance := 0 }

/-! ## Pipeline orchestrator (`MotionEngine.handleSensorData`)

The orchestrator's own control flow is embedded exactly; the pipeline
stages it calls are external to it, so a sample is characterized by the
outcome of each stage call (a value, or a thrown exception caught by the
corresponding per-stage catch block). -/

/-- The orchestrator lifecycle states. -/
inductive MotionEngineState where
  | idle | starting | active | paused | stopped
deriving DecidableEq

/-- Outcome of the `detector.detect` call on a sample. -/
inductive DetectorOutcome where
  | throws : DetectorOutcome
  | noRep : DetectorOutcome
  | rep (isValid : Bool) (timestamp : ℚ) : DetectorOutcome
deriving DecidableEq

/-- Outcome of the `scorer.score` call on a detected rep. -/
inductive ScorerOutcome where
  | throws : ScorerOutcome
  | ok (overall : ℚ) : ScorerOutcome
deriving DecidableEq

/-- One incoming sample, characterized by how each pipeline stage behaves
on it. -/
structure SampleBehavior where
  processorThrows : Bool
  bufferThrows : Bool
  detector : DetectorOutcome
  scorer : ScorerOutcome
  repCallbackThrows : Bool
  errorCallbackThrows : Bool
deriving DecidableEq

/-- The orchestrator state the per-sample handler reads and writes. -/
structure EngineState where
  state : MotionEngineState
  consecutivePipelineErrors : ℕ
  adapterActive : Bool
  lastRepTimestamp : Option ℚ
  totalScore : ℚ
  scoreCount : ℕ
deriving DecidableEq

/-- Externally observable callback invocations of the orchestrator. -/
inductive EngineEvent where
  | stateChange (s : MotionEngineState) : EngineEvent
  | repDetected : EngineEvent
  | errorCallback : EngineEvent
deriving DecidableEq

/-- The ceiling `MAX_CONSECUTIVE_ERRORS`. -/
def MAX_CONSECUTIVE_ERRORS : ℕ := 10

/-- `MotionEngine.stop`: a no-op from `idle`/`stopped`; otherwise stop the
sensor adapter and move to `stopped` (firing the state-change callback). -/
def stopEngine (e : EngineState) : EngineState × List EngineEvent :=
  if e.state = .idle ∨ e.state = .stopped then (e, [])
  else ({ e with adapterActive := false, state := .stopped },
        [.stateChange .stopped])

/-- `MotionEngine.handleSensorData` for one sample: discard unless active;
trip the circuit breaker at the error ceiling (stop, then one error
callback); otherwise run the stages with their per-stage catch blocks.  A
processor or detector throw increments the consecutive-error counter and
aborts the sample.  A buffer throw is caught without counting.  A scorer
throw increments the counter in its catch block, but control then reaches
the unconditional reset at the end of the outer try, which zeroes it.  A
rep-callback throw is caught without counting. -/
def handleSensorData (e : EngineState) (b : SampleBehavior) :
    EngineState × List EngineEvent :=
  if e.state ≠ .active then (e, [])
  else if e.consecutivePipelineErrors ≥ MAX_CONSECUTIVE_ERRORS then
    let stopped := stopEngine e
    (stopped.1, stopped.2 ++ [.errorCallback])
  else if b.processorThrows then
    ({ e with consecutivePipelineErrors := e.consecutivePipelineErrors + 1 }, [])
  else
    match b.detector with
    | .throws =>
      ({ e with consecutivePipelineErrors := e.consecutivePipelineErrors + 1 }, [])
    | .noRep => ({ e with consecutivePipelineErrors := 0 }, [])
    | .rep isValid t =>
      if isValid then
        match b.scorer with
        | .throws =>
          let caught := { e with consecutivePipelineErrors := e.consecutivePipelineErrors + 1 }
          ({ caught with consecutivePipelineErrors := 0 }, [])
        | .ok overall =>
          let e1 := { e with lastRepTimestamp := some t,
                             totalScore := e.totalScore + overall,
                             scoreCount := e.scoreCount + 1 }
          ({ e1 with consecutivePipelineErrors := 0 }, [.repDetected])
      else ({ e with consecutivePipelineErrors := 0 }, [])

/-- Feeds a list of samples through `handleSensorData`, concatenating the
emitted events. -/
def runEngine (e : EngineState) : List SampleBehavior → EngineState × List EngineEvent
  | [] => (e, [])
  | b :: bs =>
    let step := handleSensorData e b
    let tail := runEngine step.1 bs
    (tail.1, step.2 ++ tail.2)

/-- An active engine that has accumulated three consecutive stage errors. -/
def scoringBugEngineState : EngineState :=
  { state := .active, consecutivePipelineErrors := 3, adapterActive := true,
    lastRepTimestamp := none, totalScore := 0, scoreCount := 0 }

/-- A sample on which exactly one stage throws: the signal processor and
detector succeed, the detector returns a valid rep, and the scoring engine
throws. -/
def scoringThrowSample : SampleBehavior :=
  { processorThrows := false, bufferThrows := false,
    detector := .rep true 1000, scorer := .throws,
    repCallbackThrows := false, errorCallbackThrows := false }

/-- An engine sitting exactly at the error ceiling. -/
def breakerEngineState : EngineState :=
  { state := .active, consecutivePipelineErrors := 10, adapterActive := true,
    lastRepTimestamp := none, totalScore := 0, scoreCount := 0 }

/-- A fully successful sample (no stage throws, no rep). -/
def quietSample : SampleBehavior :=
  { processorThrows := false, bufferThrows := false, detector := .noRep,
    scorer := .ok 0, repCallbackThrows := false, errorCallbackThrows := false }

/-- A concrete ascending-phase detector state: valley fixed at `0.2`,
running peak `1`, vertical-axis tracking flat (so the candidate rep will
fail the vertical-change validation under the default thresholds). -/
def ascendingWitnessState : DetectorState :=
  { currentPhase := .ascending, repCount := 0, repStartTime := 0,
    descendStartTime := 0, bottomTime := 500, ascendStartTime := 600,
    peakMagnitude := 1, valleyMagnitude := some (1/5), peakZValue := 0,
    valleyZValue := 0 }

/-- A sample at `t = 1500` whose filtered magnitude `0.9` recovers well
above the default minimum depth over the `0.2` valley. -/
def ascendingWitnessSample : ProcessedSensorData :=
  { z := 0, timestamp := 1500, magnitude := 0, filteredZ := 0,
    filteredMagnitude := 9/10 }

/-- A detector stuck in the descending phase since `t = 0`. -/
def timeoutWitnessState : DetectorState :=
  { currentPhase := .descending, repCount := 2, repStartTime := 0,
    descendStartTime := 0, bottomTime := 0, ascendStartTime := 0,
    peakMagnitude := 1, valleyMagnitude := none, peakZValue := 0,
    valleyZValue := 0 }

/-- A sample arriving at `t = 6000`, past the 5000 ms phase timeout. -/
def timeoutWitnessSample : ProcessedSensorData :=
  { z := 0, timestamp := 6000, magnitude := 0, filteredZ := 0,
    filteredMagnitude := 1 }

/-! ## Helper lemmas -/

theorem jsRound_bounds {q : ℚ} (h0 : 0 ≤ q) (h1 : q ≤ 100) :
    0 ≤ jsRound q ∧ jsRound q ≤ 100 := by
  constructor
  · exact Int.le_floor.mpr (by push_cast; linarith)
  · have h2 : jsRound q ≤ ⌊(100.5 : ℚ)⌋ := Int.floor_le_floor (by norm_num; linarith)
    have h3 : ⌊(100.5 : ℚ)⌋ = 100 := by norm_num
    omega

theorem sanitizeScore_bounds (j : JNum) :
    0 ≤ sanitizeScore j ∧ sanitizeScore j ≤ 100 := by
  cases j with
  | nan => simp [sanitizeScore]
  | posInf => simp [sanitizeScore]
  | negInf => simp [sanitizeScore]
  | fin q =>
    refine ⟨le_max_left 0 _, ?_⟩
    exact max_le (by norm_num) (min_le_left 100 q)

/-! ## C5 — low-pass filter cold start and second-sample EMA -/

/-- C5: on any filter state in the cold-start condition (as after
construction or after `reset()`), the first `filter` call returns the raw
input unchanged, and the second call returns exactly
`α·x' + (1−α)·x` per axis, the EMA recurrence against the stored previous
filtered values.  The last two conjuncts record that `reset()` and the
constructor do establish the cold-start condition. -/
theorem lowPassFilter_coldStart_ema (f g : LowPassFilter) (x y z x' y' z' : ℚ)
    (hf : f.isInitialized = false) :
    (f.filter x y z).1 = (x, y, z)
    ∧ ((f.filter x y z).2.filter x' y' z').1
        = (f.alpha * x' + (1 - f.alpha) * x,
           f.alpha * y' + (1 - f.alpha) * y,
           f.alpha * z' + (1 - f.alpha) * z)
    ∧ (LowPassFilter.reset g).isInitialized = false
    ∧ (∀ a flt, LowPassFilter.new a = some flt → flt.isInitialized = false) := by
  refine ⟨by simp [LowPassFilter.filter, hf], by simp [LowPassFilter.filter, hf], rfl, ?_⟩
  intro a flt h
  unfold LowPassFilter.new at h
  split at h
  · exact absurd h (by simp)
  · cases h; rfl

/-- Witness for C5 at a concrete filter state with `α = 0.22`. -/
theorem lowPassFilter_coldStart_ema_witness :
    (LowPassFilter.isInitialized ⟨11/50, 0, 0, 0, false⟩ = false)
    ∧ ((LowPassFilter.filter ⟨11/50, 0, 0, 0, false⟩ 1 2 3).1 = (1, 2, 3)
       ∧ ((LowPassFilter.filter ⟨11/50, 0, 0, 0, false⟩ 1 2 3).2.filter 4 5 6).1
           = (LowPassFilter.alpha ⟨11/50, 0, 0, 0, false⟩ * 4
                + (1 - LowPassFilter.alpha ⟨11/50, 0, 0, 0, false⟩) * 1,
              LowPassFilter.alpha ⟨11/50, 0, 0, 0, false⟩ * 5
                + (1 - LowPassFilter.alpha ⟨11/50, 0, 0, 0, false⟩) * 2,
              LowPassFilter.alpha ⟨11/50, 0, 0, 0, false⟩ * 6
                + (1 - LowPassFilter.alpha ⟨11/50, 0, 0, 0, false⟩) * 3)
       ∧ (LowPassFilter.reset ⟨11/50, 0, 0, 0, false⟩).isInitialized = false
       ∧ (∀ a flt, LowPassFilter.new a = some flt → flt.isInitialized = false)) :=
  ⟨rfl, lowPassFilter_coldStart_ema ⟨11/50, 0, 0, 0, false⟩ ⟨11/50, 0, 0, 0, false⟩
     1 2 3 4 5 6 rfl⟩

/-! ## C6 — alpha range accepted by the constructor and `setAlpha` -/

/-- C6 counterexample: `α = 0` lies outside the open interval `(0,1)` the
claim names, yet the constructor succeeds on it. -/
theorem lowPassFilter_alphaZero_accepted :
    (LowPassFilter.new 0).isSome = true ∧ ¬ ((0 : ℚ) < 0 ∧ (0 : ℚ) < 1) := by
  constructor
  · norm_num [LowPassFilter.new]
  · simp

/-- C6 amended: construction and `setAlpha` succeed exactly on the closed
interval `[0,1]` — the endpoints 0 and 1 are accepted — and fail outside
it. -/
theorem lowPassFilter_alpha_valid_iff (a : ℚ) (f : LowPassFilter) :
    ((LowPassFilter.new a).isSome ↔ 0 ≤ a ∧ a ≤ 1)
    ∧ ((f.setAlpha a).isSome ↔ 0 ≤ a ∧ a ≤ 1) := by
  constructor
  · unfold LowPassFilter.new
    split
    · rename_i h
      simp only [Option.isSome_none, Bool.false_eq_true, false_iff]
      rcases h with h | h
      · intro hc; linarith [hc.1]
      · intro hc; linarith [hc.2]
    · rename_i h
      push_neg at h
      simp only [Option.isSome_some, true_iff]
      exact ⟨h.1, h.2⟩
  · unfold LowPassFilter.setAlpha
    split
    · rename_i h
      simp only [Option.isSome_none, Bool.false_eq_true, false_iff]
      rcases h with h | h
      · intro hc; linarith [hc.1]
      · intro hc; linarith [hc.2]
    · rename_i h
      push_neg at h
      simp only [Option.isSome_some, true_iff]
      exact ⟨h.1, h.2⟩

/-! ## C8 — scoring engine sanitization and weighted overall -/

/-- C8: for every features input, including NaN, infinite, negative and
above-100 component scores, the sanitizer maps NaN and infinities to 0 and
clamps to `[0,100]`; under the default weights the returned depth,
stability and consistency sub-scores lie in `[0,100]`, and the overall is
the (finite, `[0,100]`-bounded) rounding of the weighted sum
`depth·0.5 + stability·0.3 + consistency·0.2` of the sanitized inputs. -/
theorem scoringEngine_score_sanitized (features : ScoringFeatures) :
    (sanitizeScore .nan = 0 ∧ sanitizeScore .posInf = 0 ∧ sanitizeScore .negInf = 0)
    ∧ (∀ j, 0 ≤ sanitizeScore j ∧ sanitizeScore j ≤ 100)
    ∧ (0 ≤ (ScoringEngine.score DEFAULT_WEIGHTS features).depth
       ∧ (ScoringEngine.score DEFAULT_WEIGHTS features).depth ≤ 100)
    ∧ (0 ≤ (ScoringEngine.score DEFAULT_WEIGHTS features).stability
       ∧ (ScoringEngine.score DEFAULT_WEIGHTS features).stability ≤ 100)
    ∧ (0 ≤ (ScoringEngine.score DEFAULT_WEIGHTS features).consistency
       ∧ (ScoringEngine.score DEFAULT_WEIGHTS features).consistency ≤ 100)
    ∧ (ScoringEngine.score DEFAULT_WEIGHTS features).overall
        = jsRound (sanitizeScore features.depthScore * (1/2)
            + sanitizeScore features.stabilityScore * (3/10)
            + sanitizeScore features.rangeScore * (1/5))
    ∧ (0 ≤ (ScoringEngine.score DEFAULT_WEIGHTS features).overall
       ∧ (ScoringEngine.score DEFAULT_WEIGHTS features).overall ≤ 100) := by
  obtain ⟨hd0, hd1⟩ := sanitizeScore_bounds features.depthScore
  obtain ⟨hs0, hs1⟩ := sanitizeScore_bounds features.stabilityScore
  obtain ⟨hr0, hr1⟩ := sanitizeScore_bounds features.rangeScore
  have hw : calculateWeightedScore DEFAULT_WEIGHTS (sanitizeScore features.depthScore)
      (sanitizeScore features.stabilityScore) (sanitizeScore features.rangeScore)
      = sanitizeScore features.depthScore * (1/2)
        + sanitizeScore features.stabilityScore * (3/10)
        + sanitizeScore features.rangeScore * (1/5) := by
    unfold calculateWeightedScore DEFAULT_WEIGHTS
    norm_num
  refine ⟨⟨rfl, rfl, rfl⟩, sanitizeScore_bounds, ?_, ?_, ?_, ?_, ?_⟩
  · exact jsRound_bounds hd0 hd1
  · exact jsRound_bounds hs0 hs1
  · exact jsRound_bounds hr0 hr1
  · show jsRound (calculateWeightedScore _ _ _ _) = _
    rw [hw]
  · show 0 ≤ jsRound (calculateWeightedScore _ _ _ _)
      ∧ jsRound (calculateWeightedScore _ _ _ _) ≤ 100
    rw [hw]
    exact jsRound_bounds (by linarith) (by linarith)

/-! ## C3 / C4 — orchestrator error handling -/

theorem handleSensorData_of_stopped (e : EngineState) (b : SampleBehavior)
    (h : e.state = .stopped) : handleSensorData e b = (e, []) := by
  unfold handleSensorData
  rw [if_pos]
  rw [h]
  simp

theorem runEngine_of_stopped (e : EngineState) (bs : List SampleBehavior)
    (h : e.state = .stopped) : runEngine e bs = (e, []) := by
  induction bs with
  | nil => rfl
  | cons b rest ih =>
    simp only [runEngine, handleSensorData_of_stopped e b h, ih]
    simp

/-- C3: the claim fails on the code for the scoring stage.  Evaluated at a
concrete active engine with 3 consecutive errors and a sample on which
only the scoring engine throws, the handler leaves the counter at 0
instead of 4: the increment performed in the scoring catch block is
immediately overwritten by the unconditional end-of-try reset. -/
theorem motionEngine_scoringError_counter_bug :
    scoringBugEngineState.state = .active
    ∧ scoringBugEngineState.consecutivePipelineErrors = 3
    ∧ scoringThrowSample.processorThrows = false
    ∧ scoringThrowSample.detector = .rep true 1000
    ∧ scoringThrowSample.scorer = .throws
    ∧ (handleSensorData scoringBugEngineState scoringThrowSample).1.consecutivePipelineErrors = 0
    ∧ (handleSensorData scoringBugEngineState scoringThrowSample).2 = [] :=
  ⟨rfl, rfl, rfl, rfl, rfl, rfl, rfl⟩

/-- C4: once the consecutive-error counter has reached the ceiling of 10,
the next sample delivered while active stops the engine (state `stopped`,
sensor adapter stopped) and fires the error callback exactly once, and no
error callback fires on any sample delivered after that. -/
theorem motionEngine_circuitBreaker (e : EngineState) (b : SampleBehavior)
    (bs : List SampleBehavior)
    (ha : e.state = .active)
    (he : MAX_CONSECUTIVE_ERRORS ≤ e.consecutivePipelineErrors) :
    (handleSensorData e b).1.state = .stopped
    ∧ (handleSensorData e b).1.adapterActive = false
    ∧ (handleSensorData e b).2.count .errorCallback = 1
    ∧ (runEngine (handleSensorData e b).1 bs).2.count .errorCallback = 0 := by
  have h1 : handleSensorData e b
      = ({ e with adapterActive := false, state := .stopped },
         [.stateChange .stopped, .errorCallback]) := by
    unfold handleSensorData
    rw [if_neg (by rw [ha]; simp)]
    rw [if_pos he]
    unfold stopEngine
    rw [if_neg (by rw [ha]; simp)]
    rfl
  rw [h1]
  refine ⟨rfl, rfl, by simp [List.count_cons], ?_⟩
  rw [runEngine_of_stopped _ bs rfl]
  rfl

/-- Witness for C4 at the concrete ceiling state, with one further sample
delivered after the trip. -/
theorem motionEngine_circuitBreaker_witness :
    breakerEngineState.state = .active
    ∧ MAX_CONSECUTIVE_ERRORS ≤ breakerEngineState.consecutivePipelineErrors
    ∧ ((handleSensorData breakerEngineState quietSample).1.state = .stopped
       ∧ (handleSensorData breakerEngineState quietSample).1.adapterActive = false
       ∧ (handleSensorData breakerEngineState quietSample).2.count .errorCallback = 1
       ∧ (runEngine (handleSensorData breakerEngineState quietSample).1
            [quietSample]).2.count .errorCallback = 0) :=
  ⟨rfl, by norm_num [breakerEngineState, MAX_CONSECUTIVE_ERRORS],
   motionEngine_circuitBreaker breakerEngineState quietSample [quietSample] rfl
     (by norm_num [breakerEngineState, MAX_CONSECUTIVE_ERRORS])⟩

/-! ## Detector helper lemmas -/

@[simp] theorem updatePeakMagnitude_currentPhase (m : ℚ) (s : DetectorState) :
    (updatePeakMagnitude m s).currentPhase = s.currentPhase := rfl

@[simp] theorem updatePeakMagnitude_repCount (m : ℚ) (s : DetectorState) :
    (updatePeakMagnitude m s).repCount = s.repCount := rfl

@[simp] theorem updatePeakMagnitude_repStartTime (m : ℚ) (s : DetectorState) :
    (updatePeakMagnitude m s).repStartTime = s.repStartTime := rfl

@[simp] theorem updatePeakMagnitude_descendStartTime (m : ℚ) (s : DetectorState) :
    (updatePeakMagnitude m s).descendStartTime = s.descendStartTime := rfl

@[simp] theorem updatePeakMagnitude_bottomTime (m : ℚ) (s : DetectorState) :
    (updatePeakMagnitude m s).bottomTime = s.bottomTime := rfl

@[simp] theorem updatePeakMagnitude_ascendStartTime (m : ℚ) (s : DetectorState) :
    (updatePeakMagnitude m s).ascendStartTime = s.ascendStartTime := rfl

@[simp] theorem updatePeakMagnitude_valleyMagnitude (m : ℚ) (s : DetectorState) :
    (updatePeakMagnitude m s).valleyMagnitude = s.valleyMagnitude := rfl

@[simp] theorem updatePeakMagnitude_peakZValue (m : ℚ) (s : DetectorState) :
    (updatePeakMagnitude m s).peakZValue = s.peakZValue := rfl

@[simp] theorem updatePeakMagnitude_valleyZValue (m : ℚ) (s : DetectorState) :
    (updatePeakMagnitude m s).valleyZValue = s.valleyZValue := rfl

@[simp] theorem updateValleyMagnitude_currentPhase (m : ℚ) (s : DetectorState) :
    (updateValleyMagnitude m s).currentPhase = s.currentPhase := rfl

@[simp] theorem updateValleyMagnitude_repCount (m : ℚ) (s : DetectorState) :
    (updateValleyMagnitude m s).repCount = s.repCount := rfl

@[simp] theorem updateValleyMagnitude_repStartTime (m : ℚ) (s : DetectorState) :
    (updateValleyMagnitude m s).repStartTime = s.repStartTime := rfl

@[simp] theorem updateValleyMagnitude_descendStartTime (m : ℚ) (s : DetectorState) :
    (updateValleyMagnitude m s).descendStartTime = s.descendStartTime := rfl

@[simp] theorem updateValleyMagnitude_bottomTime (m : ℚ) (s : DetectorState) :
    (updateValleyMagnitude m s).bottomTime = s.bottomTime := rfl

@[simp] theorem updateValleyMagnitude_ascendStartTime (m : ℚ) (s : DetectorState) :
    (updateValleyMagnitude m s).ascendStartTime = s.ascendStartTime := rfl

@[simp] theorem updateValleyMagnitude_peakMagnitude (m : ℚ) (s : DetectorState) :
    (updateValleyMagnitude m s).peakMagnitude = s.peakMagnitude := rfl

@[simp] theorem updateValleyMagnitude_peakZValue (m : ℚ) (s : DetectorState) :
    (updateValleyMagnitude m s).peakZValue = s.peakZValue := rfl

@[simp] theorem updateValleyMagnitude_valleyZValue (m : ℚ) (s : DetectorState) :
    (updateValleyMagnitude m s).valleyZValue = s.valleyZValue := rfl

@[simp] theorem updateZAxisTracking_currentPhase (z : ℚ) (s : DetectorState) :
    (updateZAxisTracking z s).currentPhase = s.currentPhase := rfl

@[simp] theorem updateZAxisTracking_repCount (z : ℚ) (s : DetectorState) :
    (updateZAxisTracking z s).repCount = s.repCount := rfl

@[simp] theorem updateZAxisTracking_repStartTime (z : ℚ) (s : DetectorState) :
    (updateZAxisTracking z s).repStartTime = s.repStartTime := rfl

@[simp] theorem updateZAxisTracking_descendStartTime (z : ℚ) (s : DetectorState) :
    (updateZAxisTracking z s).descendStartTime = s.descendStartTime := rfl

@[simp] theorem updateZAxisTracking_bottomTime (z : ℚ) (s : DetectorState) :
    (updateZAxisTracking z s).bottomTime = s.bottomTime := rfl

@[simp] theorem updateZAxisTracking_ascendStartTime (z : ℚ) (s : DetectorState) :
    (updateZAxisTracking z s).ascendStartTime = s.ascendStartTime := rfl

@[simp] theorem updateZAxisTracking_peakMagnitude (z : ℚ) (s : DetectorState) :
    (updateZAxisTracking z s).peakMagnitude = s.peakMagnitude := rfl

@[simp] theorem updateZAxisTracking_valleyMagnitude (z : ℚ) (s : DetectorState) :
    (updateZAxisTracking z s).valleyMagnitude = s.valleyMagnitude := rfl

@[simp] theorem trackUpdates_currentPhase (s : DetectorState) (d : ProcessedSensorData) :
    (trackUpdates s d).currentPhase = s.currentPhase := by
  simp only [trackUpdates]
  split <;> split <;> simp

@[simp] theorem trackUpdates_repCount (s : DetectorState) (d : ProcessedSensorData) :
    (trackUpdates s d).repCount = s.repCount := by
  simp only [trackUpdates]
  split <;> split <;> simp

@[simp] theorem trackUpdates_repStartTime (s : DetectorState) (d : ProcessedSensorData) :
    (trackUpdates s d).repStartTime = s.repStartTime := by
  simp only [trackUpdates]
  split <;> split <;> simp

@[simp] theorem trackUpdates_descendStartTime (s : DetectorState) (d : ProcessedSensorData) :
    (trackUpdates s d).descendStartTime = s.descendStartTime := by
  simp only [trackUpdates]
  split <;> split <;> simp

@[simp] theorem trackUpdates_bottomTime (s : DetectorState) (d : ProcessedSensorData) :
    (trackUpdates s d).bottomTime = s.bottomTime := by
  simp only [trackUpdates]
  split <;> split <;> simp

@[simp] theorem trackUpdates_ascendStartTime (s : DetectorState) (d : ProcessedSensorData) :
    (trackUpdates s d).ascendStartTime = s.ascendStartTime := by
  simp only [trackUpdates]
  split <;> split <;> simp

@[simp] theorem createDetectedRep_timestamp (s : DetectorState) (v t : ℚ) :
    (createDetectedRep s v t).timestamp = t := rfl

theorem trackUpdates_of_ascending (s : DetectorState) (d : ProcessedSensorData)
    (h : s.currentPhase = .ascending) :
    trackUpdates s d = updatePeakMagnitude d.filteredMagnitude s := by
  simp [trackUpdates, h]

/-! ## C1 — rejected candidate rep: discarded, counter unchanged, reset -/

/-- C1: on a sample taking the ascending→completed transition (no phase
timeout, recovery over the fixed valley reaching the configured minimum
depth) whose candidate rep fails validation, `detect` returns no rep, the
rep counter is unchanged, and the phase and every in-progress rep tracking
field are reset to their idle values. -/
theorem squatDetector_rejectedRep_resetsIdle (cfg : SquatDetectionConfig)
    (s : DetectorState) (d : ProcessedSensorData) (v : ℚ)
    (hph : s.currentPhase = .ascending)
    (hto : ¬ d.timestamp - s.ascendStartTime > 5000)
    (hv : s.valleyMagnitude = some v)
    (hrec : d.filteredMagnitude - v ≥ cfg.minDepthThreshold)
    (hval : validateRep cfg (updatePeakMagnitude d.filteredMagnitude s)
        (createDetectedRep (updatePeakMagnitude d.filteredMagnitude s) v d.timestamp)
        = false) :
    detect cfg s d =
      (none,
       { currentPhase := .idle, repCount := s.repCount, repStartTime := 0,
         descendStartTime := 0, bottomTime := 0, ascendStartTime := 0,
         peakMagnitude := 0, valleyMagnitude := none, peakZValue := 0,
         valleyZValue := 0 }) := by
  unfold detect
  rw [trackUpdates_of_ascending s d hph]
  have hp2 : (updatePeakMagnitude d.filteredMagnitude s).currentPhase = .ascending := by
    simp [hph]
  simp only [hp2]
  unfold handleAscendingPhase
  rw [updatePeakMagnitude_ascendStartTime, if_neg hto,
      updatePeakMagnitude_valleyMagnitude, hv]
  simp only [if_pos hrec, hval]
  simp [resetRepState]

/-! ## C7 — phase timeout abandons the rep -/

/-- C7: a sample whose timestamp is more than 5000 ms past entry into the
descending phase (or past entry into the ascending phase) returns the
detector to idle with the in-progress rep state reset, emits no rep, and
leaves the rep counter unchanged. -/
theorem squatDetector_phaseTimeout_resetsIdle (cfg : SquatDetectionConfig)
    (s : DetectorState) (d : ProcessedSensorData)
    (h : (s.currentPhase = .descending ∧ d.timestamp - s.descendStartTime > 5000)
       ∨ (s.currentPhase = .ascending ∧ d.timestamp - s.ascendStartTime > 5000)) :
    detect cfg s d =
      (none,
       { currentPhase := .idle, repCount := s.repCount, repStartTime := 0,
         descendStartTime := 0, bottomTime := 0, ascendStartTime := 0,
         peakMagnitude := 0, valleyMagnitude := none, peakZValue := 0,
         valleyZValue := 0 }) := by
  rcases h with ⟨hph, hto⟩ | ⟨hph, hto⟩
  · unfold detect
    have hp2 : (trackUpdates s d).currentPhase = .descending := by
      rw [trackUpdates_currentPhase, hph]
    simp only [hp2]
    unfold handleDescendingPhase
    rw [trackUpdates_descendStartTime, if_pos hto]
    simp [resetRepState]
  · unfold detect
    have hp2 : (trackUpdates s d).currentPhase = .ascending := by
      rw [trackUpdates_currentPhase, hph]
    simp only [hp2]
    unfold handleAscendingPhase
    rw [trackUpdates_ascendStartTime, if_pos hto]
    simp [resetRepState]

/-! ## C10 — depth at completion is at least the recovery threshold -/

/-- C10: whenever the ascending→completed transition fires (recovery
`filteredMagnitude − valley` at least `minDepthThreshold`), the candidate
rep's depth `peakMagnitude − valley` also reaches `minDepthThreshold`,
since the running peak absorbs the current sample before the check; hence
if validation rejects the candidate, the failing check is one of the four
later checks, never the depth check. -/
theorem squatDetector_completedDepth_passesCheckOne (cfg : SquatDetectionConfig)
    (s : DetectorState) (d : ProcessedSensorData) (v : ℚ)
    (hph : s.currentPhase = .ascending)
    (hto : ¬ d.timestamp - s.ascendStartTime > 5000)
    (hv : s.valleyMagnitude = some v)
    (hrec : d.filteredMagnitude - v ≥ cfg.minDepthThreshold) :
    (createDetectedRep (updatePeakMagnitude d.filteredMagnitude s) v d.timestamp).depth
      ≥ cfg.minDepthThreshold
    ∧ (validateRep cfg (updatePeakMagnitude d.filteredMagnitude s)
         (createDetectedRep (updatePeakMagnitude d.filteredMagnitude s) v d.timestamp)
         = false →
       (|(createDetectedRep (updatePeakMagnitude d.filteredMagnitude s) v
            d.timestamp).features.zAxisChange| < |cfg.minZAxisChange|
        ∨ ¬ isValidDuration (updatePeakMagnitude d.filteredMagnitude s).repStartTime
              d.timestamp cfg.minRepDuration cfg.maxRepDuration
        ∨ (createDetectedRep (updatePeakMagnitude d.filteredMagnitude s) v
             d.timestamp).features.stabilityScore < cfg.minStabilityScore
        ∨ (createDetectedRep (updatePeakMagnitude d.filteredMagnitude s) v
             d.timestamp).features.depthScore < cfg.minDepthScore)) := by
  have hdepth : (createDetectedRep (updatePeakMagnitude d.filteredMagnitude s) v
      d.timestamp).depth ≥ cfg.minDepthThreshold := by
    show (updatePeakMagnitude d.filteredMagnitude s).peakMagnitude - v
        ≥ cfg.minDepthThreshold
    unfold updatePeakMagnitude
    dsimp only
    split
    · linarith
    · rename_i hc
      push_neg at hc
      linarith
  refine ⟨hdepth, ?_⟩
  intro hval
  unfold validateRep at hval
  rw [createDetectedRep_timestamp] at hval
  rw [if_neg (not_lt.mpr hdepth)] at hval
  by_cases h2 : |(createDetectedRep (updatePeakMagnitude d.filteredMagnitude s) v
      d.timestamp).features.zAxisChange| < |cfg.minZAxisChange|
  · exact Or.inl h2
  rw [if_neg h2] at hval
  by_cases h3 : ¬ isValidDuration (updatePeakMagnitude d.filteredMagnitude s).repStartTime
      d.timestamp cfg.minRepDuration cfg.maxRepDuration
  · exact Or.inr (Or.inl h3)
  rw [if_neg h3] at hval
  by_cases h4 : (createDetectedRep (updatePeakMagnitude d.filteredMagnitude s) v
      d.timestamp).features.stabilityScore < cfg.minStabilityScore
  · exact Or.inr (Or.inr (Or.inl h4))
  rw [if_neg h4] at hval
  by_cases h5 : (createDetectedRep (updatePeakMagnitude d.filteredMagnitude s) v
      d.timestamp).features.depthScore < cfg.minDepthScore
  · exact Or.inr (Or.inr (Or.inr h5))
  rw [if_neg h5] at hval
  exact absurd hval (by simp)

/-- Witness for C1 at the concrete ascending state and sample: the
candidate rep fails the vertical-change check and the detector resets. -/
theorem squatDetector_rejectedRep_resetsIdle_witness :
    (ascendingWitnessState.currentPhase = .ascending
     ∧ ¬ ascendingWitnessSample.timestamp - ascendingWitnessState.ascendStartTime > 5000
     ∧ ascendingWitnessState.valleyMagnitude = some (1/5)
     ∧ ascendingWitnessSample.filteredMagnitude - 1/5 ≥ DEFAULT_SQUAT_CONFIG.minDepthThreshold
     ∧ validateRep DEFAULT_SQUAT_CONFIG
         (updatePeakMagnitude ascendingWitnessSample.filteredMagnitude ascendingWitnessState)
         (createDetectedRep
           (updatePeakMagnitude ascendingWitnessSample.filteredMagnitude ascendingWitnessState)
           (1/5) ascendingWitnessSample.timestamp) = false)
    ∧ detect DEFAULT_SQUAT_CONFIG ascendingWitnessState ascendingWitnessSample =
        (none,
         { currentPhase := .idle, repCount := ascendingWitnessState.repCount,
           repStartTime := 0, descendStartTime := 0, bottomTime := 0,
           ascendStartTime := 0, peakMagnitude := 0, valleyMagnitude := none,
           peakZValue := 0, valleyZValue := 0 }) :=
  ⟨⟨rfl, by norm_num [ascendingWitnessState, ascendingWitnessSample], rfl,
    by norm_num [ascendingWitnessState, ascendingWitnessSample, DEFAULT_SQUAT_CONFIG],
    by norm_num [validateRep, createDetectedRep, extract, calculateDepthScore,
      calculateStabilityScore, calculateRangeScore, isValidDuration,
      updatePeakMagnitude, DEFAULT_SQUAT_CONFIG, ascendingWitnessState,
      ascendingWitnessSample]⟩,
   squatDetector_rejectedRep_resetsIdle DEFAULT_SQUAT_CONFIG ascendingWitnessState
     ascendingWitnessSample (1/5) rfl
     (by norm_num [ascendingWitnessState, ascendingWitnessSample]) rfl
     (by norm_num [ascendingWitnessState, ascendingWitnessSample, DEFAULT_SQUAT_CONFIG])
     (by norm_num [validateRep, createDetectedRep, extract, calculateDepthScore,
       calculateStabilityScore, calculateRangeScore, isValidDuration,
       updatePeakMagnitude, DEFAULT_SQUAT_CONFIG, ascendingWitnessState,
       ascendingWitnessSample])⟩

/-- Witness for C7 at a concrete detector stuck in descending for 6 s. -/
theorem squatDetector_phaseTimeout_resetsIdle_witness :
    (timeoutWitnessState.currentPhase = .descending
     ∧ timeoutWitnessSample.timestamp - timeoutWitnessState.descendStartTime > 5000)
    ∧ detect DEFAULT_SQUAT_CONFIG timeoutWitnessState timeoutWitnessSample =
        (none,
         { currentPhase := .idle, repCount := timeoutWitnessState.repCount,
           repStartTime := 0, descendStartTime := 0, bottomTime := 0,
           ascendStartTime := 0, peakMagnitude := 0, valleyMagnitude := none,
           peakZValue := 0, valleyZValue := 0 }) :=
  ⟨⟨rfl, by norm_num [timeoutWitnessState, timeoutWitnessSample]⟩,
   squatDetector_phaseTimeout_resetsIdle DEFAULT_SQUAT_CONFIG timeoutWitnessState
     timeoutWitnessSample
     (Or.inl ⟨rfl, by norm_num [timeoutWitnessState, timeoutWitnessSample]⟩)⟩

/-- Witness for C10 at the concrete ascending state and sample: the depth
reaches the threshold, so the rejection (which does occur here) is due to
a later check. -/
theorem squatDetector_completedDepth_passesCheckOne_witness :
    (ascendingWitnessState.currentPhase = .ascending
     ∧ ¬ ascendingWitnessSample.timestamp - ascendingWitnessState.ascendStartTime > 5000
     ∧ ascendingWitnessState.valleyMagnitude = some (1/5)
     ∧ ascendingWitnessSample.filteredMagnitude - 1/5 ≥ DEFAULT_SQUAT_CONFIG.minDepthThreshold)
    ∧ ((createDetectedRep
          (updatePeakMagnitude ascendingWitnessSample.filteredMagnitude ascendingWitnessState)
          (1/5) ascendingWitnessSample.timestamp).depth
        ≥ DEFAULT_SQUAT_CONFIG.minDepthThreshold
       ∧ (validateRep DEFAULT_SQUAT_CONFIG
            (updatePeakMagnitude ascendingWitnessSample.filteredMagnitude ascendingWitnessState)
            (createDetectedRep
              (updatePeakMagnitude ascendingWitnessSample.filteredMagnitude ascendingWitnessState)
              (1/5) ascendingWitnessSample.timestamp) = false →
          (|(createDetectedRep
               (updatePeakMagnitude ascendingWitnessSample.filteredMagnitude ascendingWitnessState)
               (1/5) ascendingWitnessSample.timestamp).features.zAxisChange|
             < |DEFAULT_SQUAT_CONFIG.minZAxisChange|
           ∨ ¬ isValidDuration
                (updatePeakMagnitude ascendingWitnessSample.filteredMagnitude
                   ascendingWitnessState).repStartTime
                ascendingWitnessSample.timestamp DEFAULT_SQUAT_CONFIG.minRepDuration
                DEFAULT_SQUAT_CONFIG.maxRepDuration
           ∨ (createDetectedRep
                (updatePeakMagnitude ascendingWitnessSample.filteredMagnitude ascendingWitnessState)
                (1/5) ascendingWitnessSample.timestamp).features.stabilityScore
               < DEFAULT_SQUAT_CONFIG.minStabilityScore
           ∨ (createDetectedRep
                (updatePeakMagnitude ascendingWitnessSample.filteredMagnitude ascendingWitnessState)
                (1/5) ascendingWitnessSample.timestamp).features.depthScore
               < DEFAULT_SQUAT_CONFIG.minDepthScore))) :=
  ⟨⟨rfl, by norm_num [ascendingWitnessState, ascendingWitnessSample], rfl,
    by norm_num [ascendingWitnessState, ascendingWitnessSample, DEFAULT_SQUAT_CONFIG]⟩,
   squatDetector_completedDepth_passesCheckOne DEFAULT_SQUAT_CONFIG ascendingWitnessState
     ascendingWitnessSample (1/5) rfl
     (by norm_num [ascendingWitnessState, ascendingWitnessSample]) rfl
     (by norm_num [ascendingWitnessState, ascendingWitnessSample, DEFAULT_SQUAT_CONFIG])⟩

/-! ## C2 — monotonic rep numbering -/

theorem handleIdlePhase_count (s : DetectorState) (d : ProcessedSensorData) :
    (handleIdlePhase s d).1 = none ∧ (handleIdlePhase s d).2.repCount = s.repCount := by
  unfold handleIdlePhase
  split
  · exact ⟨rfl, rfl⟩
  · exact ⟨rfl, rfl⟩

theorem handleDescendingPhase_count (s : DetectorState) (d : ProcessedSensorData) :
    (handleDescendingPhase s d).1 = none
    ∧ (handleDescendingPhase s d).2.repCount = s.repCount := by
  unfold handleDescendingPhase
  split
  · exact ⟨rfl, rfl⟩
  · split
    · exact ⟨rfl, rfl⟩
    · split
      · exact ⟨rfl, rfl⟩
      · exact ⟨rfl, rfl⟩

theorem handleAscendingPhase_count (cfg : SquatDetectionConfig) (s : DetectorState)
    (d : ProcessedSensorData) :
    ((handleAscendingPhase cfg s d).1 = none →
      (handleAscendingPhase cfg s d).2.repCount = s.repCount)
    ∧ (∀ r, (handleAscendingPhase cfg s d).1 = some r →
        r.repNumber = s.repCount + 1
        ∧ (handleAscendingPhase cfg s d).2.repCount = s.repCount + 1) := by
  unfold handleAscendingPhase
  split
  · exact ⟨fun _ => rfl, fun r hr => by simp at hr⟩
  · split
    · exact ⟨fun _ => rfl, fun r hr => by simp at hr⟩
    · split
      · dsimp only
        split
        · refine ⟨fun h => by simp at h, fun r hr => ?_⟩
          rename_i v heq hrec hval
          have hr2 : r = { createDetectedRep s v d.timestamp with isValid := true } := by
            simpa using hr.symm
          subst hr2
          exact ⟨rfl, rfl⟩
        · exact ⟨fun _ => rfl, fun r hr => by simp at hr⟩
      · exact ⟨fun _ => rfl, fun r hr => by simp at hr⟩

theorem detect_count (cfg : SquatDetectionConfig) (s : DetectorState)
    (d : ProcessedSensorData) :
    ((detect cfg s d).1 = none → (detect cfg s d).2.repCount = s.repCount)
    ∧ (∀ r, (detect cfg s d).1 = some r →
        r.repNumber = s.repCount + 1 ∧ (detect cfg s d).2.repCount = s.repCount + 1) := by
  cases hph : s.currentPhase with
  | idle =>
    have hp2 : (trackUpdates s d).currentPhase = .idle := by
      rw [trackUpdates_currentPhase, hph]
    obtain ⟨h1, h2⟩ := handleIdlePhase_count (trackUpdates s d) d
    unfold detect
    simp only [hp2]
    refine ⟨fun _ => ?_, fun r hr => ?_⟩
    · rw [h2, trackUpdates_repCount]
    · rw [h1] at hr; simp at hr
  | descending =>
    have hp2 : (trackUpdates s d).currentPhase = .descending := by
      rw [trackUpdates_currentPhase, hph]
    obtain ⟨h1, h2⟩ := handleDescendingPhase_count (trackUpdates s d) d
    unfold detect
    simp only [hp2]
    refine ⟨fun _ => ?_, fun r hr => ?_⟩
    · rw [h2, trackUpdates_repCount]
    · rw [h1] at hr; simp at hr
  | bottom =>
    have hp2 : (trackUpdates s d).currentPhase = .bottom := by
      rw [trackUpdates_currentPhase, hph]
    unfold detect
    simp only [hp2]
    refine ⟨fun _ => ?_, fun r hr => ?_⟩
    · show (handleBottomPhase (trackUpdates s d) d).2.repCount = s.repCount
      rw [show (handleBottomPhase (trackUpdates s d) d).2.repCount
            = (trackUpdates s d).repCount from rfl, trackUpdates_repCount]
    · simp [handleBottomPhase] at hr
  | ascending =>
    have hp2 : (trackUpdates s d).currentPhase = .ascending := by
      rw [trackUpdates_currentPhase, hph]
    obtain ⟨h1, h2⟩ := handleAscendingPhase_count cfg (trackUpdates s d) d
    unfold detect
    simp only [hp2]
    refine ⟨fun h => ?_, fun r hr => ?_⟩
    · rw [h1 h, trackUpdates_repCount]
    · obtain ⟨ha, hb⟩ := h2 r hr
      rw [trackUpdates_repCount] at ha hb
      exact ⟨ha, hb⟩
  | completed =>
    have hp2 : (trackUpdates s d).currentPhase = .completed := by
      rw [trackUpdates_currentPhase, hph]
    unfold detect
    simp only [hp2]
    refine ⟨fun _ => ?_, fun r hr => ?_⟩
    · show (trackUpdates s d).repCount = s.repCount
      exact trackUpdates_repCount s d
    · simp at hr

theorem runDetector_count (cfg : SquatDetectionConfig)
    (l : List ProcessedSensorData) : ∀ s : DetectorState,
    ((runDetector cfg s l).2.map DetectedRep.repNumber
       = List.range' (s.repCount + 1) (runDetector cfg s l).2.length)
    ∧ (runDetector cfg s l).1.repCount = s.repCount + (runDetector cfg s l).2.length := by
  induction l with
  | nil => intro s; simp [runDetector]
  | cons d rest ih =>
    intro s
    obtain ⟨ih1, ih2⟩ := ih (detect cfg s d).2
    rcases hr : (detect cfg s d).1 with _ | r
    · have h2 := (detect_count cfg s d).1 hr
      rw [h2] at ih1 ih2
      simp only [runDetector, hr, Option.toList_none, List.nil_append]
      exact ⟨ih1, ih2⟩
    · obtain ⟨ha, hb⟩ := (detect_count cfg s d).2 r hr
      rw [hb] at ih1 ih2
      simp only [runDetector, hr, Option.toList_some, List.cons_append, List.nil_append,
        List.map_cons, List.length_cons]
      constructor
      · rw [List.range'_succ, ha, ih1]
      · omega

/-- C2: over any sample stream fed to a freshly reset detector, the
emitted (accepted) reps carry `repNumber` values exactly `1, 2, ..., N` in
order of emission, where `N` is the number of accepted reps; and `reset()`
returns the rep counter to 0 from any state. -/
theorem squatDetector_repNumbers_monotone (cfg : SquatDetectionConfig)
    (samples : List ProcessedSensorData) :
    (runDetector cfg initialDetectorState samples).2.map DetectedRep.repNumber
      = List.range' 1 (runDetector cfg initialDetectorState samples).2.length
    ∧ (∀ s : DetectorState, (DetectorState.reset s).repCount = 0) := by
  refine ⟨?_, fun s => rfl⟩
  have h := (runDetector_count cfg samples initialDetectorState).1
  simpa [initialDetectorState] using h

/-! ## C9 — peak prominence look-around window -/

/-- C9: the claim fails on the code.  On a 12-sample window with its only
local maximum (value 1) at index 1, a flat plateau to its right, and a
deep minimum (−5) at index 11 — exactly 10 samples to the right of the
peak — the reported prominence is `1 − (0 + 0.5)/2 = 3/4`, because the
right-hand look-around `slice(index + 1, min(length, index + 10))` covers
only 9 samples; the claim's 10-samples-each-side formula gives
`1 − (0 + (−5))/2 = 7/2`.  The under-3-samples clause of the claim does
hold and is recorded in the last conjunct. -/
theorem peakDetector_prominence_window_bug :
    (findPeaks peakWindowConfig peakWindowSamples true).map Peak.index = [1]
    ∧ (findPeaks peakWindowConfig peakWindowSamples true).map Peak.prominence = [3/4]
    ∧ claimedProminence (peakWindowSamples.map ProcessedSensorData.filteredMagnitude) 1 = 7/2
    ∧ ((3 : ℚ)/4 ≠ 7/2)
    ∧ (∀ (cfg : PeakDetectionConfig) (data : List ProcessedSensorData) (b : Bool),
        data.length < 3 → findPeaks cfg data b = []) := by
  refine ⟨?_, ?_, ?_, by norm_num, ?_⟩
  · norm_num [findPeaks, peakWindowConfig, peakWindowSamples, calculateProminence, minOf, maxOf,
      filterByDistance, filterByDistanceStep, List.range_succ, List.filterMap_cons]
  · norm_num [findPeaks, peakWindowConfig, peakWindowSamples, calculateProminence, minOf, maxOf,
      filterByDistance, filterByDistanceStep, List.range_succ, List.filterMap_cons]
  · norm_num [claimedProminence, peakWindowSamples, minOf]
  · intro cfg data b h
    unfold findPeaks
    rw [if_pos h]

end Tryner
